import Mathlib

/-!
Verification of the 0RG interactive backup wizard (src/0RG.py) against its
natural-language specification.  The Python source is shallowly embedded:
pure decision logic becomes Lean functions, interactive prompts become step
functions over the raw input string, and subprocess results become explicit
parameters (`Option String` for a listing attempt: `none` = success,
`some out` = failure with diagnostic output `out`).
-/

namespace ZeroRG

/-! ## Python string primitives (ASCII semantics, as exercised by the program) -/

/-- ASCII lowercasing of a string, modelling Python `str.lower()` on the
ASCII data this program compares (all markers and command tokens are ASCII). -/
def pyLower (s : String) : String := String.mk (s.data.map Char.toLower)

/-- Whitespace recognised by Python `str.strip()` (ASCII subset). -/
def isPySpace (ch : Char) : Bool :=
  ch == ' ' || ch == '\t' || ch == '\n' || ch == '\r' ||
    ch == Char.ofNat 11 || ch == Char.ofNat 12

/-- Python `str.strip()`: drop leading and trailing whitespace. -/
def pyStrip (s : String) : String :=
  String.mk (((s.data.dropWhile isPySpace).reverse.dropWhile isPySpace).reverse)

/-- Python `str.strip("/")`: drop leading and trailing slashes. -/
def pyStripSlash (s : String) : String :=
  String.mk (((s.data.dropWhile (· == '/')).reverse.dropWhile (· == '/')).reverse)

/-- `isPrefixCh n h` holds when the character list `n` is an initial segment
of `h`. -/
def isPrefixCh : List Char → List Char → Bool
  | [], _ => true
  | _ :: _, [] => false
  | a :: as, b :: bs => a == b && isPrefixCh as bs

/-- `containsCh n h`: the character list `n` occurs contiguously inside `h`
(Python's `n in h` on strings). -/
def containsCh (needle : List Char) : List Char → Bool
  | [] => isPrefixCh needle []
  | b :: bs => isPrefixCh needle (b :: bs) || containsCh needle bs

/-- Python's substring test `needle in hay`. -/
def strContains (hay needle : String) : Bool := containsCh needle.data hay.data

/-! ## Remote health check (`remote_ok_or_fix`, src/0RG.py lines 174-218) -/

/-- Tri-state health-check outcome from the spec's data model. -/
inductive Health
  | ok
  | needsReauth
  | fatal
deriving DecidableEq, Repr

/-- The authorization-failure markers tested by `remote_ok_or_fix`
(src/0RG.py lines 185-190), in source order. -/
def reauthMarkers : List String :=
  ["empty token", "reconnect", "failed to create oauth client", "invalid_grant"]

/-- `needs_reconnect` flag of src/0RG.py lines 185-190: the (already
lowercased) diagnostic message contains one of the four markers. -/
def needs_reconnect (msg : String) : Bool :=
  strContains msg "empty token" || strContains msg "reconnect" ||
    strContains msg "failed to create oauth client" || strContains msg "invalid_grant"

/-- Classification of a health-check failure: the branch taken by
`remote_ok_or_fix` on a `CalledProcessError` whose output is `out`
(the code lowercases `out`, then tests the markers). -/
def classify_failure (out : String) : Health :=
  if needs_reconnect (pyLower out) then .needsReauth else .fatal

/-! ### Helper lemmas: substring containment survives character mapping -/

theorem isPrefixCh_map (f : Char → Char) :
    ∀ {n h : List Char}, isPrefixCh n h = true → isPrefixCh (n.map f) (h.map f) = true := by
  intro n
  induction n with
  | nil => intro h _; simp [isPrefixCh]
  | cons a as ih =>
    intro h hp
    cases h with
    | nil => simp [isPrefixCh] at hp
    | cons b bs =>
      simp only [isPrefixCh, Bool.and_eq_true, beq_iff_eq] at hp
      simp only [List.map, isPrefixCh, Bool.and_eq_true, beq_iff_eq]
      exact ⟨by rw [hp.1], ih hp.2⟩

theorem containsCh_map (f : Char → Char) :
    ∀ {h n : List Char}, containsCh n h = true → containsCh (n.map f) (h.map f) = true := by
  intro h
  induction h with
  | nil =>
    intro n hc
    simp only [containsCh] at hc ⊢
    cases n with
    | nil => simp [isPrefixCh]
    | cons a as => simp [isPrefixCh] at hc
  | cons b bs ih =>
    intro n hc
    simp only [containsCh, Bool.or_eq_true] at hc
    rcases hc with hp | hrest
    · have := isPrefixCh_map f hp
      simp only [List.map, containsCh, Bool.or_eq_true]
      exact Or.inl (by simpa using this)
    · simp only [List.map, containsCh, Bool.or_eq_true]
      exact Or.inr (ih hrest)

/-- Containment of an all-lowercase needle is preserved by `pyLower`. -/
theorem strContains_pyLower (s needle : String)
    (hfix : needle.data.map Char.toLower = needle.data)
    (hc : strContains s needle = true) :
    strContains (pyLower s) needle = true := by
  unfold strContains at hc ⊢
  unfold pyLower
  have := containsCh_map Char.toLower hc
  rwa [hfix] at this

/-- C1: a health-check failure is classified NeedsReauth iff its lowercased
diagnostic text contains one of the four authorization-failure markers; in
particular any text containing "invalid_grant" is NeedsReauth, and a text
matching no marker is Fatal. -/
theorem classify_failure_spec (out : String) :
    (classify_failure out = .needsReauth ↔
        reauthMarkers.any (fun m => strContains (pyLower out) m) = true)
    ∧ (strContains out "invalid_grant" = true → classify_failure out = .needsReauth)
    ∧ (reauthMarkers.any (fun m => strContains (pyLower out) m) = false →
        classify_failure out = .fatal) := by
  have hmark : reauthMarkers.any (fun m => strContains (pyLower out) m) =
      needs_reconnect (pyLower out) := by
    simp [reauthMarkers, needs_reconnect, List.any, Bool.or_assoc]
  refine ⟨?_, ?_, ?_⟩
  · rw [hmark]
    unfold classify_failure
    by_cases h : needs_reconnect (pyLower out) = true
    · simp [h]
    · simp [h]
  · intro hig
    have hlow : strContains (pyLower out) "invalid_grant" = true :=
      strContains_pyLower out "invalid_grant" (by decide) hig
    unfold classify_failure
    have : needs_reconnect (pyLower out) = true := by
      unfold needs_reconnect
      simp [hlow]
    simp [this]
  · intro hnone
    rw [hmark] at hnone
    unfold classify_failure
    simp [hnone]

/-- Witness for C1 at a concrete diagnostic text containing "invalid_grant". -/
theorem classify_failure_spec_witness :
    classify_failure "oauth2: cannot fetch token: invalid_grant" = .needsReauth :=
  (classify_failure_spec "oauth2: cannot fetch token: invalid_grant").2.1 (by decide)

/-! ## Transfer command construction (src/0RG.py lines 421-428) -/

/-- Two-digit zero padding, as produced by `strftime` for `%m` and `%d`. -/
def pad2 (n : Nat) : String := if n < 10 then "0" ++ toString n else toString n

/-- `datetime.now().strftime("%Y-%m-%d")` for the date `(y, m, d)`. -/
def strftime_Ymd (y m d : Nat) : String :=
  toString y ++ "-" ++ pad2 m ++ "-" ++ pad2 d

/-- The `cmd` list built by `main` (src/0RG.py lines 421-428): copy verb,
source, `remote:dest`, fast-list flag, then the optional backup-dir pair,
dry-run flag and progress flag, in that order.  `today` is the formatted
current date. -/
def build_cmd (rclone source remote dest versions_base : String)
    (use_versions dry_run show_progress : Bool) (today : String) : List String :=
  [rclone, "copy", source, remote ++ ":" ++ dest, "--fast-list"]
    ++ (if use_versions then
          ["--backup-dir", remote ++ ":" ++ versions_base ++ "/" ++ today]
        else [])
    ++ (if dry_run then ["--dry-run"] else [])
    ++ (if show_progress then ["--progress"] else [])

/-- C2: with versioning enabled the command contains the pair
`--backup-dir <remote>:<base>/<YYYY-MM-DD>` (and the date formatter yields
"2024-01-02" on 2024-01-02); with versioning disabled no `--backup-dir`
element occurs (given that the free-form arguments are not that literal). -/
theorem build_cmd_backup_dir (rclone source remote dest vb : String)
    (dry prog : Bool) (y m d : Nat)
    (hr : rclone ≠ "--backup-dir") (hs : source ≠ "--backup-dir")
    (hd : remote ++ ":" ++ dest ≠ "--backup-dir") :
    List.IsInfix ["--backup-dir", remote ++ ":" ++ vb ++ "/" ++ strftime_Ymd y m d]
        (build_cmd rclone source remote dest vb true dry prog (strftime_Ymd y m d))
      ∧ strftime_Ymd 2024 1 2 = "2024-01-02"
      ∧ "--backup-dir" ∉
          build_cmd rclone source remote dest vb false dry prog (strftime_Ymd y m d) := by
  refine ⟨?_, by decide, ?_⟩
  · refine ⟨[rclone, "copy", source, remote ++ ":" ++ dest, "--fast-list"],
      (if dry then ["--dry-run"] else []) ++ (if prog then ["--progress"] else []), ?_⟩
    simp [build_cmd]
  · intro hmem
    rcases Bool.eq_false_or_eq_true dry with hdy | hdy <;>
      rcases Bool.eq_false_or_eq_true prog with hp | hp <;>
      simp only [build_cmd, hdy, hp] at hmem <;>
      simp at hmem <;>
      rcases hmem with h | h | h <;>
      first
        | exact hr h.symm
        | exact hs h.symm
        | exact hd h.symm

/-- Witness for C2 at concrete arguments. -/
theorem build_cmd_backup_dir_witness :
    List.IsInfix ["--backup-dir", "gdrive:V/2024-01-02"]
        (build_cmd "rclone" "/home/u/Docs" "gdrive" "Backup0RG" "V"
          true true true (strftime_Ymd 2024 1 2))
      ∧ "--backup-dir" ∉
          build_cmd "rclone" "/home/u/Docs" "gdrive" "Backup0RG" "V"
            false true true (strftime_Ymd 2024 1 2) := by
  have h := build_cmd_backup_dir "rclone" "/home/u/Docs" "gdrive" "Backup0RG" "V"
    true true 2024 1 2 (by decide) (by decide) (by decide)
  exact ⟨by simpa using h.1, h.2.2⟩

/-- C3: for every parameter combination the built command has the copy verb
in the verb position (right after the executable), contains the fast-list
flag, and contains the dry-run flag whenever dry run is enabled. -/
theorem build_cmd_copy_mode (rclone source remote dest vb today : String)
    (uv dry prog : Bool) :
    (build_cmd rclone source remote dest vb uv dry prog today).get? 1 = some "copy"
      ∧ "--fast-list" ∈ build_cmd rclone source remote dest vb uv dry prog today
      ∧ (dry = true →
          "--dry-run" ∈ build_cmd rclone source remote dest vb uv dry prog today) := by
  refine ⟨rfl, ?_, ?_⟩
  · simp [build_cmd]
  · intro hdry
    simp [build_cmd, hdry]

/-- Witness for C3 at concrete arguments with dry run enabled. -/
theorem build_cmd_copy_mode_witness :
    (build_cmd "rclone" "/s" "gdrive" "d" "V" false true false "t").get? 1 = some "copy"
      ∧ "--dry-run" ∈ build_cmd "rclone" "/s" "gdrive" "d" "V" false true false "t" := by
  have h := build_cmd_copy_mode "rclone" "/s" "gdrive" "d" "V" "t" false true false
  exact ⟨h.1, h.2.2 rfl⟩

/-! ## Reauthorization flow of `remote_ok_or_fix` (src/0RG.py lines 174-218) -/

/-- How a call of `remote_ok_or_fix` ends: fall through normally, terminate
via `SystemExit code`, or let an exception escape (the un-handled
`CalledProcessError` of the re-test, carrying its diagnostic output). -/
inductive FixOutcome
  | proceed
  | sysExit (code : Int)
  | uncaught (output : String)
deriving DecidableEq, Repr

/-- Shallow embedding of `remote_ok_or_fix`.  `first_lsd` is the result of
the initial `rclone lsd` (`none` = exit 0, `some out` = failure with output
`out`, already lowercased by the code before marker matching is applied to
it — here we keep the raw output and lowercase inside, as the code does).
`consent` is the user's answer to the reconnect prompt, `reconnect_rc` the
exit code of `rclone config reconnect`, and `second_lsd` the result of the
single re-test. -/
def remote_ok_or_fix (first_lsd : Option String) (consent : Bool)
    (reconnect_rc : Int) (second_lsd : Option String) : FixOutcome :=
  match first_lsd with
  | none => .proceed
  | some out =>
    if needs_reconnect (pyLower out) then
      if consent = false then .sysExit 2
      else if reconnect_rc ≠ 0 then .sysExit reconnect_rc
      else
        match second_lsd with
        | none => .proceed
        | some out2 => .uncaught out2
    else .sysExit 2

/-- C4: in the NeedsReauth branch, declining terminates with the non-zero
status 2; accepting with a failing reauthorization terminates with that same
code; after a successful reauthorization the listing is re-tested exactly
once, succeeding silently or propagating the second failure as an uncaught
exception. -/
theorem remote_ok_or_fix_reauth (out : String)
    (hre : needs_reconnect (pyLower out) = true) (rc : Int) (second : Option String) :
    (remote_ok_or_fix (some out) false rc second = .sysExit 2 ∧ (2 : Int) ≠ 0)
      ∧ (rc ≠ 0 → remote_ok_or_fix (some out) true rc second = .sysExit rc)
      ∧ remote_ok_or_fix (some out) true 0 none = .proceed
      ∧ (∀ out2, remote_ok_or_fix (some out) true 0 (some out2) = .uncaught out2) := by
  refine ⟨⟨?_, by decide⟩, ?_, ?_, ?_⟩
  · simp [remote_ok_or_fix, hre]
  · intro hrc
    simp [remote_ok_or_fix, hre, hrc]
  · simp [remote_ok_or_fix, hre]
  · intro out2
    simp [remote_ok_or_fix, hre]

/-- Witness for C4 at a concrete failing diagnostic. -/
theorem remote_ok_or_fix_reauth_witness :
    remote_ok_or_fix (some "could not fetch token: empty token") false 1 none = .sysExit 2
      ∧ remote_ok_or_fix (some "could not fetch token: empty token") true 1 none = .sysExit 1
      ∧ remote_ok_or_fix (some "could not fetch token: empty token") true 0 (some "boom")
          = .uncaught "boom" := by
  have h := remote_ok_or_fix_reauth "could not fetch token: empty token" (by decide) 1 none
  exact ⟨h.1.1, h.2.1 (by decide), h.2.2.2 "boom"⟩

/-! ## Subfolder listing (`list_subfolders`, src/0RG.py lines 225-232) -/

/-- One entry returned by `Path.iterdir()`: its final name component and
whether it is a directory. -/
structure DirEntry where
  name : String
  isDir : Bool
deriving DecidableEq, Repr

/-- Python `name.startswith(".")`: the first character is a dot. -/
def startsWithDot (s : String) : Bool :=
  match s.data with
  | [] => false
  | c :: _ => c == '.'

/-- Code-point lexicographic order on character lists: Python's `<=` on
strings, the order underlying `sorted`. -/
def lexLeCh : List Char → List Char → Bool
  | [], _ => true
  | _ :: _, [] => false
  | a :: as, b :: bs => if a = b then lexLeCh as bs else decide (a.toNat < b.toNat)

theorem char_toNat_inj {u v : Char} (h : u.toNat = v.toNat) : u = v :=
  Char.eq_of_val_eq (UInt32.ext h)

theorem lexLeCh_total : ∀ x y : List Char, lexLeCh x y = true ∨ lexLeCh y x = true := by
  intro x
  induction x with
  | nil => intro y; exact Or.inl rfl
  | cons a as ih =>
    intro y
    cases y with
    | nil => exact Or.inr rfl
    | cons b bs =>
      by_cases hab : a = b
      · subst hab
        simpa only [lexLeCh, if_pos rfl] using ih bs
      · have hba : b ≠ a := fun h => hab h.symm
        have hne : a.toNat ≠ b.toNat := fun h => hab (char_toNat_inj h)
        simp only [lexLeCh, if_neg hab, if_neg hba, decide_eq_true_eq]
        omega

theorem lexLeCh_trans :
    ∀ x y z : List Char, lexLeCh x y = true → lexLeCh y z = true → lexLeCh x z = true := by
  intro x
  induction x with
  | nil => intro y z _ _; rfl
  | cons a as ih =>
    intro y z hxy hyz
    cases y with
    | nil => simp [lexLeCh] at hxy
    | cons b bs =>
      cases z with
      | nil => simp [lexLeCh] at hyz
      | cons c cs =>
        by_cases hab : a = b <;> by_cases hbc : b = c
        · subst hab; subst hbc
          simp only [lexLeCh, if_pos rfl] at hxy hyz ⊢
          exact ih bs cs hxy hyz
        · subst hab
          simp only [lexLeCh, if_pos rfl, if_neg hbc] at hxy hyz ⊢
          exact hyz
        · subst hbc
          simp only [lexLeCh, if_neg hab, if_pos rfl] at hxy hyz ⊢
          exact hxy
        · simp only [lexLeCh, if_neg hab, if_neg hbc, decide_eq_true_eq] at hxy hyz
          have hac : a ≠ c := fun h => by
            subst h
            omega
          simp only [lexLeCh, if_neg hac, decide_eq_true_eq]
          omega

/-- Case-insensitive name order used as the sort key
(`key=lambda x: x.name.lower()`). -/
def nameLe (a b : DirEntry) : Prop :=
  lexLeCh (pyLower a.name).data (pyLower b.name).data = true

instance : DecidableRel nameLe := fun a b =>
  inferInstanceAs (Decidable (lexLeCh (pyLower a.name).data (pyLower b.name).data = true))

instance : IsTotal DirEntry nameLe :=
  ⟨fun a b => lexLeCh_total (pyLower a.name).data (pyLower b.name).data⟩

instance : IsTrans DirEntry nameLe := ⟨fun _ _ _ => lexLeCh_trans _ _ _⟩

/-- Shallow embedding of `list_subfolders`: `listing` is the result of
`path.iterdir()` (`none` = the read raised, `some entries` = the raw entry
list).  The visible directories are kept and sorted by lowercased name;
any failure degrades to the empty list. -/
def list_subfolders (listing : Option (List DirEntry)) : List DirEntry :=
  match listing with
  | none => []
  | some entries =>
    (entries.filter (fun p => p.isDir && !(startsWithDot p.name))).insertionSort nameLe

/-- C5: a failed directory read yields the empty list; otherwise the listing
holds exactly the child directories whose name does not start with a dot,
and it is pairwise ordered by case-insensitive name. -/
theorem list_subfolders_spec (listing : Option (List DirEntry)) :
    list_subfolders none = []
      ∧ (∀ entries p, listing = some entries →
          (p ∈ list_subfolders listing ↔
            p ∈ entries ∧ p.isDir = true ∧ startsWithDot p.name = false))
      ∧ (list_subfolders listing).Pairwise nameLe := by
  refine ⟨rfl, ?_, ?_⟩
  · intro entries p hl
    subst hl
    simp only [list_subfolders, List.mem_insertionSort, List.mem_filter,
      Bool.and_eq_true, Bool.not_eq_true']
  · cases listing with
    | none => simp [list_subfolders]
    | some entries => exact List.sorted_insertionSort nameLe _

/-- Witness for C5: a concrete mixed listing keeps only visible directories,
case-insensitively sorted. -/
theorem list_subfolders_spec_witness :
    (⟨"Pics", true⟩ : DirEntry) ∈
        list_subfolders (some [⟨"Pics", true⟩, ⟨".git", true⟩, ⟨"a.txt", false⟩])
      ∧ list_subfolders (some [⟨"Pics", true⟩, ⟨".git", true⟩, ⟨"a.txt", false⟩])
          = [⟨"Pics", true⟩] := by
  constructor
  · exact ((list_subfolders_spec
      (some [⟨"Pics", true⟩, ⟨".git", true⟩, ⟨"a.txt", false⟩])).2.1
      [⟨"Pics", true⟩, ⟨".git", true⟩, ⟨"a.txt", false⟩] ⟨"Pics", true⟩ rfl).2
      (by refine ⟨by simp, by decide, by decide⟩)
  · decide

/-! ## Folder Navigator (`folder_browser`, src/0RG.py lines 235-282) -/

/-- Decimal value of a digit string, as computed by Python `int()`. -/
def digitsToNat (l : List Char) : Nat :=
  l.foldl (fun acc ch => acc * 10 + (ch.toNat - 48)) 0

/-- Python `choice.isdigit()` guard followed by `int(choice)`: a non-empty
all-digit string parses to its decimal value, anything else to `none`. -/
def parse_digits (s : String) : Option Nat :=
  if !s.data.isEmpty && s.data.all Char.isDigit then some (digitsToNat s.data) else none

/-- A filesystem snapshot: the `iterdir` result at each absolute path, a
path being its component list from the root (`[]` = the root, whose parent
is itself). -/
abbrev Fs := List String → Option (List DirEntry)

/-- Result of one iteration of the `folder_browser` loop: help shown (state
unchanged), moved to a directory, invalid-input feedback (state unchanged),
selection of the current directory, or cancellation. -/
inductive BrowseStep
  | helpShown (cur : List String)
  | moved (cur : List String)
  | invalid (cur : List String)
  | selected (cur : List String)
  | cancelled
deriving DecidableEq, Repr

/-- Dispatch on the already stripped-and-lowercased input `choice`, exactly
in the order of src/0RG.py lines 260-282: help tokens, quit tokens (only
"q" and "quit" here), "u" = ascend unless at the root, "b" = select, a
digit string = descend when in range, anything else = invalid. -/
def browser_dispatch (subs : List DirEntry) (cur : List String) (choice : String) :
    BrowseStep :=
  if choice = "h" ∨ choice = "help" ∨ choice = "?" then .helpShown cur
  else if choice = "q" ∨ choice = "quit" then .cancelled
  else if choice = "u" then .moved (if cur = [] then cur else cur.dropLast)
  else if choice = "b" then .selected cur
  else
    match parse_digits choice with
    | some idx =>
      if h : 1 ≤ idx ∧ idx ≤ subs.length then
        .moved (cur ++ [(subs.get ⟨idx - 1, by omega⟩).name])
      else .invalid cur
    | none => .invalid cur

/-- One iteration of the `folder_browser` loop on raw input `raw` at the
current directory `cur` of filesystem `fs`: the input is stripped and
lowercased (line 258), the subfolders listed, and the command dispatched. -/
def browser_step (fs : Fs) (cur : List String) (raw : String) : BrowseStep :=
  browser_dispatch (list_subfolders (fs cur)) cur (pyLower (pyStrip raw))

/-- A string that parses as a digit choice is none of the command tokens. -/
theorem parse_digits_not_cmd {c : String} {k : Nat} (h : parse_digits c = some k) :
    c ≠ "h" ∧ c ≠ "help" ∧ c ≠ "?" ∧ c ≠ "q" ∧ c ≠ "quit" ∧ c ≠ "u" ∧ c ≠ "b" := by
  have hnone : ∀ c0 : String, parse_digits c0 = none → c ≠ c0 := by
    intro c0 h0 hc
    rw [hc, h0] at h
    exact Option.noConfusion h
  exact ⟨hnone _ (by decide), hnone _ (by decide), hnone _ (by decide),
    hnone _ (by decide), hnone _ (by decide), hnone _ (by decide), hnone _ (by decide)⟩

/-- C6: ascend-then-descend round trip.  From the directory `pre ++ [e.name]`,
the "u" command moves to `pre`; if the raw input `s` parses to the 1-based
index `k` of the entry `e` in the listing of `pre`, entering `s` moves back
to exactly `pre ++ [e.name]`, the directory before the ascend (the
filesystem `fs` is the same at both steps). -/
theorem browser_ascend_descend (fs : Fs) (pre : List String) (e : DirEntry)
    (s : String) (k : Nat)
    (hparse : parse_digits (pyLower (pyStrip s)) = some k)
    (hk1 : 1 ≤ k)
    (hget : (list_subfolders (fs pre))[k - 1]? = some e) :
    browser_step fs (pre ++ [e.name]) "u" = .moved pre
      ∧ browser_step fs pre s = .moved (pre ++ [e.name]) := by
  constructor
  · show browser_dispatch _ (pre ++ [e.name]) (pyLower (pyStrip "u")) = _
    rw [show pyLower (pyStrip "u") = "u" from by decide]
    unfold browser_dispatch
    rw [if_neg (by decide), if_neg (by decide), if_pos rfl,
      if_neg (by simp), List.dropLast_concat]
  · obtain ⟨hc1, hc2, hc3, hc4, hc5, hc6, hc7⟩ := parse_digits_not_cmd hparse
    obtain ⟨hlt, hgeteq⟩ := List.getElem?_eq_some.1 hget
    have hk2 : k ≤ (list_subfolders (fs pre)).length := by omega
    show browser_dispatch (list_subfolders (fs pre)) pre (pyLower (pyStrip s)) = _
    unfold browser_dispatch
    rw [if_neg (by tauto), if_neg (by tauto), if_neg hc6, if_neg hc7, hparse]
    have hcond : 1 ≤ k ∧ k ≤ (list_subfolders (fs pre)).length := ⟨hk1, hk2⟩
    simp only [dif_pos hcond]
    have : (list_subfolders (fs pre)).get ⟨k - 1, by omega⟩ = e := by
      simpa [List.get_eq_getElem] using hgeteq
    rw [this]

/-- Witness for C6 on a two-level concrete filesystem. -/
theorem browser_ascend_descend_witness :
    browser_step
        (fun p => if p = [] then some [⟨"Docs", true⟩, ⟨"Pics", true⟩] else some [])
        (["Pics"]) "u" = .moved []
      ∧ browser_step
          (fun p => if p = [] then some [⟨"Docs", true⟩, ⟨"Pics", true⟩] else some [])
          [] "2" = .moved ["Pics"] := by
  have h := browser_ascend_descend
    (fun p => if p = [] then some [⟨"Docs", true⟩, ⟨"Pics", true⟩] else some [])
    [] ⟨"Pics", true⟩ "2" 2 (by decide) (by decide) (by decide)
  exact ⟨h.1, h.2⟩

/-! ## Interactive prompt handlers (`pick_remote`, `ask_yes_no`,
`choose_source_folder`, and the two confirmation prompts of `main`) -/

/-- Result of one iteration of the `pick_remote` loop
(src/0RG.py lines 146-171). -/
inductive PickStep
  | helpAgain
  | quitEmpty
  | chosen (r : String)
  | invalid
deriving DecidableEq, Repr

/-- One iteration of `pick_remote` on raw input `raw`: help tokens, quit
tokens (here including "salir"), a 1-based index, or an exact name match. -/
def pick_remote_step (remotes : List String) (raw : String) : PickStep :=
  let choice := pyStrip raw
  if pyLower choice = "h" ∨ pyLower choice = "help" ∨ pyLower choice = "?" then .helpAgain
  else if pyLower choice = "q" ∨ pyLower choice = "quit" ∨ pyLower choice = "salir" then
    .quitEmpty
  else
    match parse_digits choice with
    | some idx =>
      if h : 1 ≤ idx ∧ idx ≤ remotes.length then .chosen (remotes.get ⟨idx - 1, by omega⟩)
      else .invalid
    | none => if choice ∈ remotes then .chosen choice else .invalid

/-- Result of one iteration of the `ask_yes_no` loop
(src/0RG.py lines 107-120).  There is no quit branch in this loop. -/
inductive YesNoStep
  | helpAgain
  | defaultAnswer
  | yes
  | no
  | invalid
deriving DecidableEq, Repr

/-- One iteration of `ask_yes_no` on raw input `raw`. -/
def ask_yes_no_step (raw : String) : YesNoStep :=
  let ans := pyLower (pyStrip raw)
  if ans = "h" ∨ ans = "help" ∨ ans = "?" then .helpAgain
  else if ans = "" then .defaultAnswer
  else if ans = "s" ∨ ans = "si" ∨ ans = "sí" ∨ ans = "y" ∨ ans = "yes" then .yes
  else if ans = "n" ∨ ans = "no" then .no
  else .invalid

/-- Result of one iteration of the `choose_source_folder` loop
(src/0RG.py lines 293-332). -/
inductive SourceStep
  | helpAgain
  | quitNone
  | browseDocs
  | browseDesk
  | manual
  | invalid
deriving DecidableEq, Repr

/-- One iteration of `choose_source_folder`: `docs`/`desk` say whether the
two shortcut locations exist; empty input falls back to the default choice. -/
def choose_source_step (docs desk : Bool) (raw : String) : SourceStep :=
  let d := if docs then "1" else "3"
  let choice := if pyLower (pyStrip raw) = "" then d else pyLower (pyStrip raw)
  if choice = "h" ∨ choice = "help" ∨ choice = "?" then .helpAgain
  else if choice = "q" ∨ choice = "quit" then .quitNone
  else if choice = "1" ∧ docs = true then .browseDocs
  else if choice = "2" ∧ desk = true then .browseDesk
  else if choice = "3" then .manual
  else .invalid

/-- Outcome of the remote-confirmation prompt of `main`
(src/0RG.py lines 377-389): a help token shows the help screen and then
returns from `main`; there is no re-prompt. -/
inductive ConfirmStep
  | helpQuit
  | quit
  | pickOther
  | useDefault
deriving DecidableEq, Repr

/-- The remote-confirmation prompt: empty input defaults to "s". -/
def remote_confirm_step (raw : String) : ConfirmStep :=
  let t := pyLower (pyStrip raw)
  let ans := if t = "" then "s" else t
  if ans = "h" ∨ ans = "help" ∨ ans = "?" then .helpQuit
  else if ans = "q" ∨ ans = "quit" then .quit
  else if ans = "n" ∨ ans = "no" then .pickOther
  else .useDefault

/-- Outcome of the final pre-execution confirmation prompt of `main`
(src/0RG.py lines 443-448). -/
inductive GoStep
  | helpQuit
  | quit
  | execute
deriving DecidableEq, Repr

/-- The final confirmation prompt: empty input defaults to "s"; any answer
that is none of the recognized tokens starts the copy. -/
def go_confirm_step (raw : String) : GoStep :=
  let t := pyLower (pyStrip raw)
  let go := if t = "" then "s" else t
  if go = "h" ∨ go = "help" ∨ go = "?" then .helpQuit
  else if go = "n" ∨ go = "no" ∨ go = "q" ∨ go = "quit" then .quit
  else .execute

/-- C7 counterexample: at the folder-browser prompt the quit token "salir"
is not recognized; it is treated as invalid input, not as a cancellation. -/
theorem browser_salir_not_quit :
    browser_step (fun _ => some []) [] "salir" = .invalid []
      ∧ browser_step (fun _ => some []) [] "salir" ≠ .cancelled := by
  decide

/-- C7 amended: "q" and "quit" quit at the remote pick-list, folder-browser,
source-chooser, remote-confirmation and final-confirmation prompts; "salir"
quits only at the remote pick-list (elsewhere it is invalid input or falls
through to the default action); the help tokens "h", "help", "?" are
recognized at all those prompts and at yes/no prompts, which in turn
recognize no quit token. -/
theorem prompt_tokens (remotes : List String) (fs : Fs) (cur : List String)
    (docs desk : Bool) :
    (pick_remote_step remotes "q" = .quitEmpty
      ∧ pick_remote_step remotes "quit" = .quitEmpty
      ∧ pick_remote_step remotes "salir" = .quitEmpty
      ∧ pick_remote_step remotes "h" = .helpAgain
      ∧ pick_remote_step remotes "help" = .helpAgain
      ∧ pick_remote_step remotes "?" = .helpAgain)
    ∧ (browser_step fs cur "q" = .cancelled
      ∧ browser_step fs cur "quit" = .cancelled
      ∧ browser_step fs cur "salir" = .invalid cur
      ∧ browser_step fs cur "h" = .helpShown cur
      ∧ browser_step fs cur "help" = .helpShown cur
      ∧ browser_step fs cur "?" = .helpShown cur)
    ∧ (choose_source_step docs desk "q" = .quitNone
      ∧ choose_source_step docs desk "quit" = .quitNone
      ∧ choose_source_step docs desk "salir" = .invalid
      ∧ choose_source_step docs desk "h" = .helpAgain
      ∧ choose_source_step docs desk "help" = .helpAgain
      ∧ choose_source_step docs desk "?" = .helpAgain)
    ∧ (ask_yes_no_step "h" = .helpAgain
      ∧ ask_yes_no_step "help" = .helpAgain
      ∧ ask_yes_no_step "?" = .helpAgain
      ∧ ask_yes_no_step "q" = .invalid
      ∧ ask_yes_no_step "quit" = .invalid
      ∧ ask_yes_no_step "salir" = .invalid)
    ∧ (remote_confirm_step "q" = .quit
      ∧ remote_confirm_step "quit" = .quit
      ∧ remote_confirm_step "salir" = .useDefault
      ∧ remote_confirm_step "h" = .helpQuit
      ∧ remote_confirm_step "help" = .helpQuit
      ∧ remote_confirm_step "?" = .helpQuit)
    ∧ (go_confirm_step "q" = .quit
      ∧ go_confirm_step "quit" = .quit
      ∧ go_confirm_step "salir" = .execute
      ∧ go_confirm_step "h" = .helpQuit
      ∧ go_confirm_step "help" = .helpQuit
      ∧ go_confirm_step "?" = .helpQuit) :=
  ⟨⟨rfl, rfl, rfl, rfl, rfl, rfl⟩, ⟨rfl, rfl, rfl, rfl, rfl, rfl⟩,
    ⟨rfl, rfl, rfl, rfl, rfl, rfl⟩, ⟨rfl, rfl, rfl, rfl, rfl, rfl⟩,
    ⟨rfl, rfl, rfl, rfl, rfl, rfl⟩, ⟨rfl, rfl, rfl, rfl, rfl, rfl⟩⟩

/-! ## Remote selection default (src/0RG.py line 369) -/

/-- `default_remote = "gdrive" if "gdrive" in remotes else remotes[0]`;
`none` on the empty list, where the Python line would raise. -/
def default_remote : List String → Option String
  | [] => none
  | r :: rs => some (if "gdrive" ∈ r :: rs then "gdrive" else r)

/-- C8: for a non-empty remote list the default is "gdrive" when configured,
otherwise the first remote; on ["gdrive", "work"] it is "gdrive". -/
theorem default_remote_spec (remotes : List String) (h : remotes ≠ []) :
    ("gdrive" ∈ remotes → default_remote remotes = some "gdrive")
      ∧ ("gdrive" ∉ remotes → default_remote remotes = remotes.head?)
      ∧ default_remote ["gdrive", "work"] = some "gdrive" := by
  cases remotes with
  | nil => exact absurd rfl h
  | cons r rs =>
    refine ⟨?_, ?_, by decide⟩
    · intro hg
      simp [default_remote, hg]
    · intro hg
      simp [default_remote, hg]

/-- Witness for C8 at the list ["gdrive", "work"]. -/
theorem default_remote_spec_witness :
    default_remote ["gdrive", "work"] = some "gdrive" :=
  (default_remote_spec ["gdrive", "work"] (by decide)).1 (by decide)

/-! ## Session orchestrator (`main`, src/0RG.py lines 339-466) -/

/-- The environment of one run of `main`: every user answer and every
external-process result it can consume, in program order. -/
structure MainEnv where
  rclone_found : Bool
  rclone : String
  remotes0 : List String
  setup_consent : Bool
  setup_rc : Int
  remotes1 : List String
  confirm_raw : String
  picked : Option String
  lsd1 : Option String
  reauth_consent : Bool
  reconnect_rc : Int
  lsd2 : Option String
  source : Option String
  dest_raw : String
  use_versions : Bool
  versions_raw1 : String
  versions_raw2 : String
  dry_run : Bool
  show_progress : Bool
  today : String
  go_raw : String
  copy_rc : Int

/-- How a run of `main` ends: a normal return (the process exits with
status 0), a `SystemExit code`, or an uncaught exception.  `executed` is
the transfer command handed to `subprocess.call`, or `none` when the run
never executed one. -/
inductive MainOutcome
  | finished (executed : Option (List String))
  | sysExit (code : Int) (executed : Option (List String))
  | uncaught (msg : String)
deriving DecidableEq, Repr

/-- Continuation of `main` once a remote is settled: health check (line
392), source selection (395-397), backup parameters (406-419), command
construction (421-428), final confirmation and execution (443-459). -/
def after_remote (env : MainEnv) (remote : String) : MainOutcome :=
  match remote_ok_or_fix env.lsd1 env.reauth_consent env.reconnect_rc env.lsd2 with
  | .sysExit c => .sysExit c none
  | .uncaught m => .uncaught m
  | .proceed =>
    match env.source with
    | none => .finished none
    | some source =>
      let dest0 := pyStrip env.dest_raw
      let dest := pyStripSlash (if dest0 = "" then "Backup0RG" else dest0)
      let custom0 := pyStrip env.versions_raw1
      let custom :=
        if pyLower custom0 = "h" ∨ pyLower custom0 = "help" ∨ pyLower custom0 = "?" then
          pyStrip env.versions_raw2
        else custom0
      let versions_base := pyStripSlash (if custom = "" then "Backup0RG_Versiones" else custom)
      let cmd := build_cmd env.rclone source remote dest versions_base
        env.use_versions env.dry_run env.show_progress env.today
      match go_confirm_step env.go_raw with
      | .helpQuit => .finished none
      | .quit => .finished none
      | .execute =>
        if env.copy_rc ≠ 0 then .sysExit env.copy_rc (some cmd)
        else .finished (some cmd)

/-- Shallow embedding of `main`: dependency check (line 344), remote
discovery and optional setup wizard (346-366), default remote and the
remote-confirmation prompt (369-389), then `after_remote`. -/
def main_model (env : MainEnv) : MainOutcome :=
  if env.rclone_found = false then .sysExit 2 none
  else
    match
      (if env.remotes0 ≠ [] then Sum.inl env.remotes0
       else if env.setup_consent = false then Sum.inr (MainOutcome.finished none)
       else if env.setup_rc ≠ 0 then Sum.inr (.sysExit env.setup_rc none)
       else if env.remotes1 = [] then Sum.inr (.sysExit 2 none)
       else Sum.inl env.remotes1) with
    | Sum.inr o => o
    | Sum.inl remotes =>
      let dflt := (default_remote remotes).getD ""
      match remote_confirm_step env.confirm_raw with
      | .helpQuit => .finished none
      | .quit => .finished none
      | .pickOther =>
        match env.picked with
        | none => .finished none
        | some r => after_remote env r
      | .useDefault => after_remote env dflt

/-- C9: when the remote query returns none and the user declines the setup
wizard, `main` returns normally — the process exits with status 0 — and no
transfer command is ever constructed or executed. -/
theorem main_no_remotes_declined (env : MainEnv)
    (hfound : env.rclone_found = true)
    (hnone : env.remotes0 = [])
    (hdecl : env.setup_consent = false) :
    main_model env = .finished none := by
  simp [main_model, hfound, hnone, hdecl]

/-- A fully concrete environment for the C9 scenario. -/
def envC9 : MainEnv where
  rclone_found := true
  rclone := "rclone"
  remotes0 := []
  setup_consent := false
  setup_rc := 0
  remotes1 := []
  confirm_raw := ""
  picked := none
  lsd1 := none
  reauth_consent := false
  reconnect_rc := 0
  lsd2 := none
  source := none
  dest_raw := ""
  use_versions := false
  versions_raw1 := ""
  versions_raw2 := ""
  dry_run := true
  show_progress := true
  today := "2024-01-02"
  go_raw := ""
  copy_rc := 0

/-- Witness for C9 at the concrete environment. -/
theorem main_no_remotes_declined_witness : main_model envC9 = .finished none :=
  main_no_remotes_declined envC9 rfl rfl rfl

/-- A help token at the remote-confirmation prompt takes its help branch. -/
theorem remote_confirm_help {raw : String}
    (h : pyLower (pyStrip raw) = "h" ∨ pyLower (pyStrip raw) = "help" ∨
      pyLower (pyStrip raw) = "?") :
    remote_confirm_step raw = .helpQuit := by
  unfold remote_confirm_step
  rcases h with h | h | h <;> rw [h] <;> rfl

/-- A help token at the final confirmation prompt takes its help branch. -/
theorem go_confirm_help {raw : String}
    (h : pyLower (pyStrip raw) = "h" ∨ pyLower (pyStrip raw) = "help" ∨
      pyLower (pyStrip raw) = "?") :
    go_confirm_step raw = .helpQuit := by
  unfold go_confirm_step
  rcases h with h | h | h <;> rw [h] <;> rfl

/-- C10: a help token at the remote-confirmation prompt shows the help
screen and ends the run with status 0; likewise a help token at the final
pre-execution confirmation ends the run with status 0 and nothing is
executed — neither prompt re-asks. -/
theorem confirm_help_quits (env : MainEnv) (s : String)
    (hfound : env.rclone_found = true)
    (hsome : env.remotes0 ≠ []) :
    ((pyLower (pyStrip env.confirm_raw) = "h" ∨ pyLower (pyStrip env.confirm_raw) = "help" ∨
        pyLower (pyStrip env.confirm_raw) = "?") →
      main_model env = .finished none)
    ∧ (remote_confirm_step env.confirm_raw = .useDefault →
      remote_ok_or_fix env.lsd1 env.reauth_consent env.reconnect_rc env.lsd2 = .proceed →
      env.source = some s →
      (pyLower (pyStrip env.go_raw) = "h" ∨ pyLower (pyStrip env.go_raw) = "help" ∨
        pyLower (pyStrip env.go_raw) = "?") →
      main_model env = .finished none) := by
  constructor
  · intro hconf
    have hstep := remote_confirm_help hconf
    simp [main_model, hfound, hsome, hstep]
  · intro hdef hok hsrc hgo
    have hstep := go_confirm_help hgo
    simp [main_model, after_remote, hfound, hsome, hdef, hok, hsrc, hstep]

/-- A fully concrete environment reaching the final confirmation with a
help token. -/
def envC10 : MainEnv where
  rclone_found := true
  rclone := "rclone"
  remotes0 := ["gdrive"]
  setup_consent := false
  setup_rc := 0
  remotes1 := []
  confirm_raw := ""
  picked := none
  lsd1 := none
  reauth_consent := false
  reconnect_rc := 0
  lsd2 := none
  source := some "/home/u/Documents"
  dest_raw := ""
  use_versions := false
  versions_raw1 := ""
  versions_raw2 := ""
  dry_run := true
  show_progress := true
  today := "2024-01-02"
  go_raw := "h"
  copy_rc := 0

/-- Witness for C10: at `envC10` the final confirmation receives "h" and
the run ends with status 0, never executing the built command. -/
theorem confirm_help_quits_witness : main_model envC10 = .finished none :=
  (confirm_help_quits envC10 "/home/u/Documents" rfl (by decide)).2
    (by decide) (by decide) rfl (by decide)

end ZeroRG
